import Mathlib

/-!
Verification of the composer repository's event-codec, windowing extractor,
model-construction and CLI command behaviour, as described by its specification.

Sources embedded: `src/composer/models/music_rnn.py` and `src/composer/cli.py`.
The codec module `composer.dataset.sequence` and the pipeline module
`composer.dataset.preprocess` are not part of the source tree; where their
behaviour is needed it is modelled from the specification (each such definition
carries a doc comment starting with `Modelled from the spec:`).
-/

namespace Composer

/-- The four symbolic event kinds of the MIDI-like description language
(spec §3 Event; values of `event.type` in music_rnn.py). -/
inductive EventType where
  | note_on
  | note_off
  | time_shift
  | velocity_change
deriving DecidableEq, Repr

/-- A symbolic event: a tagged kind plus an optional integer value
(spec §3 Event; `event.type` / `event.value` in music_rnn.py). -/
structure Event where
  type : EventType
  value : Option Nat
deriving DecidableEq, Repr

/-- A contiguous half-open interval `[start, stop)` of integer ids inside the
flat id space (spec §3 EventRanges; `event_ranges[...].start` in music_rnn.py).
Python calls the upper bound `end`, a Lean keyword, so it is `stop` here. -/
structure Range where
  start : Nat
  stop : Nat
deriving DecidableEq, Repr

/-- The three vocabulary configuration scalars (spec §3; `config.dataset.*`
read by `get_event_sequence_ranges` in cli.py). -/
structure Config where
  time_step_increment : Nat
  max_time_steps : Nat
  velocity_bins : Nat
deriving DecidableEq, Repr

/-- A valid configuration per spec §4.1: every parameter positive and
`time_step_increment ≤ max_time_steps`. -/
def Config.valid (c : Config) : Prop :=
  0 < c.time_step_increment ∧ 0 < c.max_time_steps ∧ 0 < c.velocity_bins ∧
    c.time_step_increment ≤ c.max_time_steps

instance (c : Config) : Decidable c.valid := by
  unfold Config.valid
  infer_instance

/-- Modelled from the spec: `EventSequence._compute_event_dimensions` of the absent
module `composer.dataset.sequence` (spec §3 EventDimensions) — the count of
distinct integer ids each kind contributes: 128 for NOTE_ON, 128 for NOTE_OFF,
`max_time_steps` for TIME_SHIFT and `velocity_bins` for VELOCITY_CHANGE. -/
def compute_event_dimensions (c : Config) : EventType → Nat
  | .note_on => 128
  | .note_off => 128
  | .time_shift => c.max_time_steps
  | .velocity_change => c.velocity_bins

/-- Modelled from the spec: the fixed canonical kind order in which
`EventSequence._compute_event_ranges` lays the kinds out consecutively
(spec §4.1): NOTE_ON, NOTE_OFF, TIME_SHIFT, VELOCITY_CHANGE. -/
def canonical_kind_order : List EventType :=
  [.note_on, .note_off, .time_shift, .velocity_change]

/-- Modelled from the spec: the start of a kind's interval is the sum of the
dimensions of the kinds preceding it in the canonical order (spec §3 EventRanges,
written out kind by kind). -/
def range_start (c : Config) : EventType → Nat
  | .note_on => 0
  | .note_off => compute_event_dimensions c .note_on
  | .time_shift => compute_event_dimensions c .note_on + compute_event_dimensions c .note_off
  | .velocity_change =>
      compute_event_dimensions c .note_on + compute_event_dimensions c .note_off +
        compute_event_dimensions c .time_shift

/-- Modelled from the spec: `EventSequence._compute_event_ranges` — each kind
occupies the contiguous half-open interval starting where the previous kind's
interval stops, of width its dimension (spec §3 EventRanges). -/
def compute_event_ranges (c : Config) (k : EventType) : Range :=
  ⟨range_start c k, range_start c k + compute_event_dimensions c k⟩

/-- Modelled from the spec: `OneHotEncodedEventSequence.get_one_hot_size(ranges)` —
the one-hot vector width `total_dimension`: the total number of ids, the sum over
the canonical kinds of the width of each kind's interval (spec §3/§6). -/
def get_one_hot_size (event_ranges : EventType → Range) : Nat :=
  (canonical_kind_order.map (fun k => (event_ranges k).stop - (event_ranges k).start)).sum

/-- From `_encode_event_as_int` (music_rnn.py 167-173):
`event_ranges[event.type].start + (event.value or 0)`; a missing value counts
as 0 and no range check is performed. -/
def encode_event_as_int (event : Event) (event_ranges : EventType → Range) : Nat :=
  (event_ranges event.type).start + event.value.getD 0

/-- The codec error taxonomy of spec §7 relevant here: EncodingError and
DecodingError. -/
inductive CodecError where
  | encoding_error
  | decoding_error
deriving DecidableEq, Repr

/-- Modelled from the spec: `IntegerEncodedEventSequence.id_to_event` — linear
search over the canonical ordering for the kind whose interval contains the id,
reconstructing `value = id - ranges[kind].start` (every kind of this vocabulary
has a sub-parameter, so the value is always present); fails with DecodingError
when the id lies in no interval (spec §4.3). -/
def id_to_event (i : Nat) (event_ranges : EventType → Range) : Except CodecError Event :=
  match canonical_kind_order.find?
      (fun k => decide ((event_ranges k).start ≤ i ∧ i < (event_ranges k).stop)) with
  | some k => .ok ⟨k, some (i - (event_ranges k).start)⟩
  | none => .error .decoding_error

/-- The one-hot vector of width `n` with its single 1 at index `j`
(spec GLOSSARY). -/
def one_hot_at (n j : Nat) : List Nat :=
  (List.range n).map (fun i => if i = j then 1 else 0)

/-- Modelled from the spec: `OneHotEncodedEventSequence.event_as_one_hot_vector` —
all zeros except index `event_to_id(...)` set to 1, of width `total_dimension`;
the integer encoding is `_encode_event_as_int` (spec §4.3). -/
def event_as_one_hot_vector (event : Event) (event_ranges : EventType → Range) : List Nat :=
  one_hot_at (get_one_hot_size event_ranges) (encode_event_as_int event event_ranges)

/-- Models `numpy.argmax` on a vector of naturals: the first index attaining the
maximum value (0 on the empty vector). -/
def np_argmax (v : List Nat) : Nat :=
  ((List.range v.length).filter (fun i => decide (v.getD i 0 = v.foldr max 0))).headD 0

/-- Modelled from the spec: `OneHotEncodedEventSequence.one_hot_vector_as_event` —
`id = argmax(vector)`, then `id_to_event` (spec §4.3). -/
def one_hot_vector_as_event (v : List Nat) (event_ranges : EventType → Range) :
    Except CodecError Event :=
  id_to_event (np_argmax v) event_ranges

/-- A valid Event under the configuration: its value is present and lies inside
its kind's bin range, `0 ≤ value < dimension(kind)` (spec §3 invariant; every
kind of this vocabulary carries a sub-parameter). -/
def Event.is_valid (e : Event) (c : Config) : Bool :=
  match e.value with
  | some v => decide (v < compute_event_dimensions c e.type)
  | none => false

/-- Sequentially applies a fallible per-element computation to a list, collecting
the results and short-circuiting on the first error. This models the consumption
of the Python generator `_get_sequences_from_file` into a list: an exception
raised while producing an element aborts the whole enumeration. -/
def except_map_list {ε α β : Type} (f : α → Except ε β) : List α → Except ε (List β)
  | [] => .ok []
  | a :: l => do
    let b ← f a
    let bs ← except_map_list f l
    pure (b :: bs)

/-- From `_get_sequences_from_file` (music_rnn.py 175-206), a file being given by
the integer-id list it stores (per spec §6 a file persists its id sequence
together with the `(value_ranges, ranges)` of the producing configuration, which
we derive from the configuration). With `extract_events_count = window_size + 1`,
`sequence_count = len(event_ids) // extract_events_count` chunks are taken; for
chunk `i`, `start = i * extract_events_count` and `end = extract_events_count *
(i + 1)`, the inputs are the slice `event_ids[start:end-1]` (the chunk's first
`window_size` ids), `x` is that slice reshaped to `(window_size, 1)` — modelled
as one singleton row per id — and `y` is the one-hot vector of the event decoded
from `event_ids[end - 1]` (an invalid id raises through `id_to_event`, modelled
by the Except error). The out-of-range default of `getD` is never used: the
index `start + window_size = end - 1` is below the length for every chunk. -/
def get_sequences_from_file (c : Config) (event_ids : List Nat) (window_size : Nat) :
    Except CodecError (List (List (List Nat) × List Nat)) :=
  except_map_list (fun i =>
    (id_to_event (event_ids.getD (i * (window_size + 1) + window_size) 0)
        (compute_event_ranges c)).map (fun event =>
      (((event_ids.drop (i * (window_size + 1))).take window_size).map (fun id => [id]),
        event_as_one_hot_vector event (compute_event_ranges c))))
    (List.range (event_ids.length / (window_size + 1)))

/-- The Python-level failures the embedded CLI and loader code can raise; a
codec exception escaping into the loader is carried by `codec`. -/
inductive PyError where
  | name_error
  | unbound_local_error
  | type_error
  | index_error
  | codec (e : CodecError)
deriving DecidableEq, Repr

/-- A loaded dataset's contents: the window tuples of every file, flattened
(the tensorflow Dataset object is modelled by the tuples it would iterate). -/
abbrev TFDataset := List (List (List Nat) × List Nat)

/-- From `create_music_rnn_dataset` (music_rnn.py 134-249). On an empty file
list, `sequence.EventSequence.from_file(filepaths[0])` faults while computing
`output_event_dimensions` (Python IndexError). The generator path builds a
tensorflow generator dataset over `_get_sequences_from_file` lazily, touching
no file contents at creation time. The non-generator path eagerly materializes
every file's tuples into the local `data` (`data = [_loader_func(filepath) for
filepath in filepaths]`), driving the generators in file order, so a
DecodingError raised for a file with an invalid id propagates out of the
comprehension and out of the function. When no exception fires, the function's
final statement is `return None`, discarding the dataset and the bound `data`,
so the caller receives Python None rather than the `(dataset, dimensions)` pair
its docstring and its caller expect; `Option` models that nullable result. -/
def create_music_rnn_dataset (c : Config) (filepaths : List (List Nat))
    (batch_size window_size : Nat) (use_generator : Bool) :
    Except PyError (Option (TFDataset × Nat)) :=
  match filepaths with
  | [] => .error .index_error
  | f0 :: rest =>
    let _output_event_dimensions := get_one_hot_size (compute_event_ranges c)
    if use_generator then
      .ok none
    else
      match except_map_list (fun ids => get_sequences_from_file c ids window_size)
          (f0 :: rest) with
      | .error e => .error (.codec e)
      | .ok _data => .ok none

/-- From `_load_music_rnn_dataset` inside `ModelType.get_dataset` (cli.py
234-243): `dataset, _ = load_dataset(...)` followed by `return dataset`.
`load_dataset` is the model layer's name for `create_music_rnn_dataset`
(spec §6; the package file exporting it is not in the source tree). Unpacking
the returned value into the pair `(dataset, _)` raises TypeError when that
value is Python None. -/
def load_music_rnn_dataset (c : Config) (files : List (List Nat))
    (batch_size window_size : Nat) (use_generator : Bool) : Except PyError TFDataset :=
  match create_music_rnn_dataset c files batch_size window_size use_generator with
  | .error e => .error e
  | .ok (some (dataset, _)) => .ok dataset
  | .ok none => .error .type_error

/-- From `cli` (cli.py 47-52): the fallback seed derived from the millisecond
clock `t` when no `--seed` option is given — a byte swizzle of `t`'s low 32
bits. -/
def cli_fallback_seed (t : Nat) : Nat :=
  ((t &&& 0xff000000) >>> 24) + ((t &&& 0x00ff0000) >>> 8) +
    ((t &&& 0x0000ff00) <<< 8) + ((t &&& 0x000000ff) <<< 24)

/-- The ambient state the cli group callback can touch: the global numpy random
generator state (abstracted to one value) and the root logger's level. -/
structure CliState where
  np_random_state : Nat
  log_level : String
deriving DecidableEq, Repr

/-- From `cli` (cli.py 37-55), the group callback run before every subcommand:
it resolves the local `seed` (the option's value, or the clock-derived
fallback), initializes logging and sets the verbosity level. No statement in
cli.py passes `seed` to any random engine — `np.random.seed` (or any other
seeding call) is never invoked — so the returned state's RNG component is the
incoming ambient one, untouched; the resolved seed value is returned alongside
only to exhibit the local that then goes out of scope. -/
def cli_group (s : CliState) (verbosity : String) (seed : Option Nat) (t : Nat) :
    CliState × Nat :=
  let seed_value :=
    match seed with
    | some v => v
    | none => cli_fallback_seed t
  ({ s with log_level := verbosity }, seed_value)

/-- The dataset-level effects of one run of the preprocess command, in execution
order. -/
inductive PAction where
  | split_dataset
  | convert_all
  | write_metadata
  | copy_config
deriving DecidableEq, Repr

/-- From `preprocess` (cli.py 78): `composer.config.get(config_filepath or
get_default_config(model_type))`. The name `model_type` is bound nowhere in the
function or at module scope in cli.py, so whenever `config_filepath` is falsy
(None — no `--config` given — or the empty string; Python `or` tests
truthiness) evaluating the right operand raises NameError. A truthy path
short-circuits and is used as-is (`composer.config.get` itself is an external
collaborator and is assumed to succeed on it). -/
def preprocess_resolve_config (config_filepath : Option String) : Except PyError String :=
  match config_filepath with
  | some p => if p.isEmpty then .error .name_error else .ok p
  | none => .error .name_error

/-- From `preprocess` (cli.py 88-100): the keys of the dictionary dumped to
metadata.json — two timestamps, the input and output paths, the transform and
split settings, and a `seed` field (read back from the ambient numpy state). -/
def metadata_keys : List String :=
  ["local_time", "utc_time", "raw_dataset_path", "output_directory",
   "transform", "transform_percent", "split", "test_percent", "seed"]

/-- From `preprocess` (cli.py 71-105): resolve the configuration (possibly
raising NameError, see `preprocess_resolve_config`); then one synchronous call
to `split_dataset` when splitting, else to `convert_all` (Modelled from the
spec: the bodies of these two functions live in `composer.dataset.preprocess`,
absent from the source tree; per spec §5 the call joins its worker pool, so all
per-file conversion completes before it returns); then, only when
`output_metadata` is set, write metadata.json and copy the configuration file
into the output directory. The result is the trace of dataset-level effects in
execution order. -/
def preprocess (config_filepath : Option String) (split output_metadata : Bool) :
    Except PyError (List PAction) := do
  let _config ← preprocess_resolve_config config_filepath
  let conversion := if split then [PAction.split_dataset] else [PAction.convert_all]
  let metadata :=
    if output_metadata then [PAction.write_metadata, PAction.copy_config] else []
  pure (conversion ++ metadata)

/-- The effects of one run of the evaluate command, in the order its statements
would perform them. -/
inductive EvalAction where
  | compile_model
  | load_weights
  | build_model
  | load_test_dataset
  | evaluate_model
deriving DecidableEq, Repr

/-- The value of the local variable `dimensions` of `evaluate` at the point it
is first read: `dimensions` is a local (it is assigned by the statement's own
target list `model, dimensions = ...`), and no assignment to it has executed
yet, so it is unbound. -/
def evaluate_dimensions_local : Option Nat := none

/-- From `evaluate` (cli.py 475-492): the configuration resolves fine here
(`model_type` is a parameter of `evaluate`, so the default-config branch is
well-defined). Then `model, dimensions = model_type.create_model(config,
dimensions)` evaluates its argument `dimensions` — a read of the unbound local,
so CPython raises UnboundLocalError while evaluating the call's arguments,
before `create_model` runs. Locals are modelled as `Option` values (`none` when
not yet assigned); the action list after the faulting statement is what the
remaining lines (compile, load weights, build, load test dataset, evaluate)
would contribute. -/
def evaluate_cmd (config_filepath : Option String) (default_config : String) :
    Except PyError (List EvalAction) := do
  let _config :=
    match config_filepath with
    | some p => if p.isEmpty then default_config else p
    | none => default_config
  let _dims ← match evaluate_dimensions_local with
    | some d => Except.ok d
    | none => Except.error PyError.unbound_local_error
  pure [EvalAction.compile_model, EvalAction.load_weights, EvalAction.build_model,
    EvalAction.load_test_dataset, EvalAction.evaluate_model]

/-- The model hyperparameters read from `config.model` by `_create_music_rnn`
(cli.py 184-186). Python is dynamically typed, so every value is modelled
uniformly as a natural: `use_batch_normalization` is the boolean 0/1 and
`lstm_dropout_probability` abstracts the float — only the identity of each
value matters to the argument binding. -/
structure ModelConfig where
  window_size : Nat
  lstm_layers_count : Nat
  lstm_layer_sizes : Nat
  lstm_dropout_probability : Nat
  use_batch_normalization : Nat
deriving DecidableEq, Repr

/-- The fields a constructed MusicRNN holds, named after the parameters of
`MusicRNN.__init__` (music_rnn.py 25-26) that populate them;
`output_layer_width` records the unit count of the softmax output layer
`Dense(output_event_dimensions)` (music_rnn.py 105). -/
structure MusicRNN where
  input_event_dimensions : Nat
  output_event_dimensions : Nat
  window_size : Nat
  lstm_layers_count : Nat
  lstm_layer_sizes : Nat
  lstm_dropout_probability : Nat
  dense_layer_size : Nat
  use_batch_normalization : Nat
  output_layer_width : Nat
deriving DecidableEq, Repr

/-- From `MusicRNN.__init__` (music_rnn.py 25-105): the declared positional
parameter order is `(input_event_dimensions, output_event_dimensions,
window_size, lstm_layers_count, lstm_layer_sizes, lstm_dropout_probability,
dense_layer_size=256, use_batch_normalization=True)`; the constructed model's
output layer is `Dense(output_event_dimensions, activation=softmax)`, so its
width is the second positional parameter. -/
def MusicRNN.init (input_event_dimensions output_event_dimensions window_size
    lstm_layers_count lstm_layer_sizes lstm_dropout_probability
    dense_layer_size use_batch_normalization : Nat) : MusicRNN :=
  { input_event_dimensions := input_event_dimensions,
    output_event_dimensions := output_event_dimensions,
    window_size := window_size,
    lstm_layers_count := lstm_layers_count,
    lstm_layer_sizes := lstm_layer_sizes,
    lstm_dropout_probability := lstm_dropout_probability,
    dense_layer_size := dense_layer_size,
    use_batch_normalization := use_batch_normalization,
    output_layer_width := output_event_dimensions }

/-- From `_create_music_rnn` (cli.py 180-187): `models.MusicRNN(dimensions,
config.model.window_size, config.model.lstm_layers_count,
config.model.lstm_layer_sizes, config.model.lstm_dropout_probability,
config.model.use_batch_normalization)` — six positional arguments, so the
constructor's trailing parameters `dense_layer_size` and
`use_batch_normalization` take their declared defaults 256 and True (1). -/
def create_music_rnn (cfg : ModelConfig) (dimensions : Nat) : MusicRNN :=
  MusicRNN.init dimensions cfg.window_size cfg.lstm_layers_count cfg.lstm_layer_sizes
    cfg.lstm_dropout_probability cfg.use_batch_normalization 256 1

/-- From `ModelType.create_model` (cli.py 163-195): `dimensions =
get_model_event_dimensions(config)` (the one-hot vocabulary size derived from
the dataset configuration) and the returned pair is the model built by
`_create_music_rnn` together with those dimensions. -/
def create_model (c : Config) (m : ModelConfig) : MusicRNN × Nat :=
  (create_music_rnn m (get_one_hot_size (compute_event_ranges c)),
    get_one_hot_size (compute_event_ranges c))

/-! Helper lemmas about the codec and the windowing extractor. -/

/-- The one-hot width of the configuration-derived ranges is
`128 + 128 + max_time_steps + velocity_bins`. -/
theorem get_one_hot_size_ranges (c : Config) :
    get_one_hot_size (compute_event_ranges c) =
      256 + c.max_time_steps + c.velocity_bins := by
  simp [get_one_hot_size, canonical_kind_order, compute_event_ranges, range_start,
    compute_event_dimensions]
  omega

/-- Decoding an id below 128 yields a NOTE_ON with that value. -/
theorem id_to_event_note_on (c : Config) (i : Nat) (h : i < 128) :
    id_to_event i (compute_event_ranges c) = .ok ⟨.note_on, some i⟩ := by
  unfold id_to_event canonical_kind_order
  rw [List.find?_cons_of_pos _ (by
    simp [compute_event_ranges, range_start, compute_event_dimensions]
    omega)]
  simp [compute_event_ranges, range_start]

/-- Decoding an id in `[128, 256)` yields a NOTE_OFF with value `id - 128`. -/
theorem id_to_event_note_off (c : Config) (i : Nat) (h1 : 128 ≤ i) (h2 : i < 256) :
    id_to_event i (compute_event_ranges c) = .ok ⟨.note_off, some (i - 128)⟩ := by
  unfold id_to_event canonical_kind_order
  rw [List.find?_cons_of_neg _ (by
    simp [compute_event_ranges, range_start, compute_event_dimensions]
    omega)]
  rw [List.find?_cons_of_pos _ (by
    simp [compute_event_ranges, range_start, compute_event_dimensions]
    omega)]
  simp [compute_event_ranges, range_start, compute_event_dimensions]

/-- Decoding an id in `[256, 256 + max_time_steps)` yields a TIME_SHIFT with
value `id - 256`. -/
theorem id_to_event_time_shift (c : Config) (i : Nat) (h1 : 256 ≤ i)
    (h2 : i < 256 + c.max_time_steps) :
    id_to_event i (compute_event_ranges c) = .ok ⟨.time_shift, some (i - 256)⟩ := by
  unfold id_to_event canonical_kind_order
  rw [List.find?_cons_of_neg _ (by
    simp [compute_event_ranges, range_start, compute_event_dimensions]
    omega)]
  rw [List.find?_cons_of_neg _ (by
    simp [compute_event_ranges, range_start, compute_event_dimensions]
    omega)]
  rw [List.find?_cons_of_pos _ (by
    simp [compute_event_ranges, range_start, compute_event_dimensions]
    omega)]
  simp [compute_event_ranges, range_start, compute_event_dimensions]

/-- Decoding an id in `[256 + max_time_steps, total)` yields a VELOCITY_CHANGE
with value `id - (256 + max_time_steps)`. -/
theorem id_to_event_velocity_change (c : Config) (i : Nat)
    (h1 : 256 + c.max_time_steps ≤ i)
    (h2 : i < 256 + c.max_time_steps + c.velocity_bins) :
    id_to_event i (compute_event_ranges c) =
      .ok ⟨.velocity_change, some (i - (256 + c.max_time_steps))⟩ := by
  unfold id_to_event canonical_kind_order
  rw [List.find?_cons_of_neg _ (by
    simp [compute_event_ranges, range_start, compute_event_dimensions]
    omega)]
  rw [List.find?_cons_of_neg _ (by
    simp [compute_event_ranges, range_start, compute_event_dimensions]
    omega)]
  rw [List.find?_cons_of_neg _ (by
    simp [compute_event_ranges, range_start, compute_event_dimensions]
    omega)]
  rw [List.find?_cons_of_pos _ (by
    simp [compute_event_ranges, range_start, compute_event_dimensions]
    omega)]
  simp [compute_event_ranges, range_start, compute_event_dimensions]

/-- Every id below the total dimension decodes to some valid event that encodes
back to the same id. -/
theorem id_to_event_total (c : Config) (i : Nat)
    (h : i < 256 + c.max_time_steps + c.velocity_bins) :
    ∃ e : Event, id_to_event i (compute_event_ranges c) = .ok e ∧
      encode_event_as_int e (compute_event_ranges c) = i ∧
      e.is_valid c = true := by
  by_cases h1 : i < 128
  · refine ⟨⟨.note_on, some i⟩, id_to_event_note_on c i h1, ?_, ?_⟩
    · simp [encode_event_as_int, compute_event_ranges, range_start]
    · simpa [Event.is_valid, compute_event_dimensions] using h1
  by_cases h2 : i < 256
  · refine ⟨⟨.note_off, some (i - 128)⟩, id_to_event_note_off c i (by omega) h2, ?_, ?_⟩
    · simp [encode_event_as_int, compute_event_ranges, range_start, compute_event_dimensions]
      omega
    · simp [Event.is_valid, compute_event_dimensions]
      omega
  by_cases h3 : i < 256 + c.max_time_steps
  · refine ⟨⟨.time_shift, some (i - 256)⟩,
      id_to_event_time_shift c i (by omega) h3, ?_, ?_⟩
    · simp [encode_event_as_int, compute_event_ranges, range_start, compute_event_dimensions]
      omega
    · simp [Event.is_valid, compute_event_dimensions]
      omega
  · refine ⟨⟨.velocity_change, some (i - (256 + c.max_time_steps))⟩,
      id_to_event_velocity_change c i (by omega) h, ?_, ?_⟩
    · simp [encode_event_as_int, compute_event_ranges, range_start, compute_event_dimensions]
      omega
    · simp [Event.is_valid, compute_event_dimensions]
      omega

/-- Encoding a valid event and decoding the id gives the event back. -/
theorem id_to_event_encode (c : Config) (e : Event) (he : e.is_valid c = true) :
    id_to_event (encode_event_as_int e (compute_event_ranges c))
      (compute_event_ranges c) = .ok e := by
  obtain ⟨t, v⟩ := e
  cases v with
  | none => simp [Event.is_valid] at he
  | some val =>
    have hval : val < compute_event_dimensions c t := by
      simpa [Event.is_valid] using he
    cases t with
    | note_on =>
      have henc : encode_event_as_int ⟨.note_on, some val⟩ (compute_event_ranges c) = val := by
        simp [encode_event_as_int, compute_event_ranges, range_start]
      rw [henc, id_to_event_note_on c val (by
        simpa [compute_event_dimensions] using hval)]
    | note_off =>
      have henc : encode_event_as_int ⟨.note_off, some val⟩ (compute_event_ranges c) =
          128 + val := by
        simp [encode_event_as_int, compute_event_ranges, range_start, compute_event_dimensions]
      have hv : val < 128 := by simpa [compute_event_dimensions] using hval
      rw [henc, id_to_event_note_off c (128 + val) (by omega) (by omega)]
      simp
    | time_shift =>
      have henc : encode_event_as_int ⟨.time_shift, some val⟩ (compute_event_ranges c) =
          256 + val := by
        simp [encode_event_as_int, compute_event_ranges, range_start, compute_event_dimensions]
      have hv : val < c.max_time_steps := by simpa [compute_event_dimensions] using hval
      rw [henc, id_to_event_time_shift c (256 + val) (by omega) (by omega)]
      simp
    | velocity_change =>
      have henc : encode_event_as_int ⟨.velocity_change, some val⟩ (compute_event_ranges c) =
          256 + c.max_time_steps + val := by
        simp [encode_event_as_int, compute_event_ranges, range_start, compute_event_dimensions]
      have hv : val < c.velocity_bins := by
        simpa [compute_event_dimensions] using hval
      rw [henc, id_to_event_velocity_change c (256 + c.max_time_steps + val)
        (by omega) (by omega)]
      simp

/-- The id of a valid event lies below the total dimension. -/
theorem encode_lt_total (c : Config) (e : Event) (he : e.is_valid c = true) :
    encode_event_as_int e (compute_event_ranges c) <
      256 + c.max_time_steps + c.velocity_bins := by
  obtain ⟨t, v⟩ := e
  cases v with
  | none => simp [Event.is_valid] at he
  | some val =>
    have hval : val < compute_event_dimensions c t := by
      simpa [Event.is_valid] using he
    cases t <;>
      simp_all [encode_event_as_int, compute_event_ranges, range_start,
        compute_event_dimensions] <;>
      omega

/-- An upper bound on every element bounds the fold of `max`. -/
theorem foldr_max_le (l : List Nat) (b : Nat) (h : ∀ x ∈ l, x ≤ b) :
    l.foldr max 0 ≤ b := by
  induction l with
  | nil => simp
  | cons a t ih =>
    simp only [List.foldr_cons]
    exact max_le (h a (List.mem_cons_self a t))
      (ih fun x hx => h x (List.mem_cons_of_mem a hx))

/-- Every element is at most the fold of `max`. -/
theorem le_foldr_max (l : List Nat) (a : Nat) (h : a ∈ l) : a ≤ l.foldr max 0 := by
  induction l with
  | nil => cases h
  | cons b t ih =>
    simp only [List.foldr_cons]
    rcases List.mem_cons.mp h with rfl | hm
    · exact le_max_left a _
    · exact le_trans (ih hm) (le_max_right b _)

/-- The one-hot vector has width `n`. -/
theorem one_hot_at_length (n j : Nat) : (one_hot_at n j).length = n := by
  simp [one_hot_at]

/-- Reading the one-hot vector below its width gives 1 exactly at `j`. -/
theorem one_hot_at_getD (n j i : Nat) (h : i < n) :
    (one_hot_at n j).getD i 0 = if i = j then 1 else 0 := by
  simp [one_hot_at, List.getD_eq_getElem?_getD, List.getElem?_range h]

/-- The maximum entry of a genuine one-hot vector is 1. -/
theorem one_hot_at_max (n j : Nat) (h : j < n) : (one_hot_at n j).foldr max 0 = 1 := by
  apply le_antisymm
  · apply foldr_max_le
    intro x hx
    simp only [one_hot_at, List.mem_map, List.mem_range] at hx
    obtain ⟨i, _, rfl⟩ := hx
    split <;> simp
  · apply le_foldr_max
    simp only [one_hot_at, List.mem_map, List.mem_range]
    exact ⟨j, h, by simp⟩

/-- Filtering `range n` for equality with `j < n` leaves exactly `[j]`. -/
theorem filter_eq_range (n j : Nat) (h : j < n) :
    (List.range n).filter (fun i => decide (i = j)) = [j] := by
  induction n with
  | zero => omega
  | succ m ih =>
    rw [List.range_succ, List.filter_append]
    by_cases hm : j < m
    · have hne : ¬(m = j) := by omega
      rw [ih hm]
      simp [List.filter_cons, hne]
    · have hjm : j = m := by omega
      subst hjm
      have h0 : (List.range j).filter (fun i => decide (i = j)) = [] := by
        rw [List.filter_eq_nil_iff]
        intro a ha
        simp only [List.mem_range] at ha
        simp
        omega
      rw [h0]
      simp

/-- numpy argmax of a genuine one-hot vector is the index of its 1. -/
theorem np_argmax_one_hot (n j : Nat) (h : j < n) : np_argmax (one_hot_at n j) = j := by
  unfold np_argmax
  rw [one_hot_at_length]
  have hcongr : (List.range n).filter
      (fun i => decide ((one_hot_at n j).getD i 0 = (one_hot_at n j).foldr max 0)) =
      (List.range n).filter (fun i => decide (i = j)) := by
    apply List.filter_congr
    intro x hx
    simp only [List.mem_range] at hx
    rw [one_hot_at_max n j h, one_hot_at_getD n j x hx]
    by_cases hxj : x = j
    · simp [hxj]
    · simp [hxj]
  rw [hcongr, filter_eq_range n j h]
  rfl

/-- A pointwise-successful fallible map collects exactly the pointwise images. -/
theorem except_map_list_ok {ε α β : Type} (f : α → Except ε β) (g : α → β) (l : List α)
    (h : ∀ a ∈ l, f a = .ok (g a)) : except_map_list f l = .ok (l.map g) := by
  induction l with
  | nil => rfl
  | cons a t ih =>
    simp only [except_map_list, List.map_cons]
    rw [h a (List.mem_cons_self a t), ih fun x hx => h x (List.mem_cons_of_mem a hx)]
    rfl

/-- The label index of the `i`-th chunk is in bounds whenever `i` is below the
chunk count. -/
theorem chunk_index_lt (len W i : Nat) (hi : i < len / (W + 1)) :
    i * (W + 1) + W < len := by
  have h2 : (i + 1) * (W + 1) ≤ (len / (W + 1)) * (W + 1) :=
    Nat.mul_le_mul_right _ hi
  have h3 : (len / (W + 1)) * (W + 1) ≤ len := Nat.div_mul_le_self len (W + 1)
  have h4 : (i + 1) * (W + 1) = i * (W + 1) + (W + 1) := Nat.succ_mul i (W + 1)
  omega

/-- On a stream of valid ids the extractor succeeds and returns, for each of the
`len / (W+1)` chunks, the chunk's first `W` ids as singleton rows paired with
the one-hot vector of the chunk's final id. -/
theorem get_sequences_from_file_eq (c : Config) (ids : List Nat) (W : Nat)
    (h : ∀ x ∈ ids, x < 256 + c.max_time_steps + c.velocity_bins) :
    get_sequences_from_file c ids W =
      .ok ((List.range (ids.length / (W + 1))).map (fun i =>
        (((ids.drop (i * (W + 1))).take W).map (fun id => [id]),
          one_hot_at (256 + c.max_time_steps + c.velocity_bins)
            (ids.getD (i * (W + 1) + W) 0)))) := by
  unfold get_sequences_from_file
  apply except_map_list_ok
  intro i hi
  simp only [List.mem_range] at hi
  have hidx : i * (W + 1) + W < ids.length := chunk_index_lt ids.length W i hi
  have hmem : ids.getD (i * (W + 1) + W) 0 ∈ ids := by
    rw [List.getD_eq_getElem?_getD, List.getElem?_eq_getElem hidx]
    exact List.getElem_mem hidx
  obtain ⟨e, hdec, henc, _⟩ := id_to_event_total c _ (h _ hmem)
  rw [hdec]
  simp only [Except.map]
  unfold event_as_one_hot_vector
  rw [get_one_hot_size_ranges, henc]

/-! The claims. -/

/-- C1: FALSE of the code (code bug). The spec — and the function's own
docstring — promise that the model-layer loader (`load_dataset`, implemented by
`create_music_rnn_dataset`) returns a dataset over the files' window tuples,
consumed by `ModelType.get_dataset` as `dataset, _ = load_dataset(...)`. For
every non-empty list of encoded event-sequence files (streams of valid ids, so
no DecodingError fires while the tuples are materialized) the implementation
runs to its final statement `return None`, discarding the tuples it just bound
to the local `data`: the loader returns Python None, never a pair with a
dataset, and the caller's tuple unpacking raises TypeError. -/
theorem C1_create_dataset_returns_none (c : Config) (f : List Nat)
    (fs : List (List Nat)) (batch_size window_size : Nat) (use_generator : Bool)
    (h : ∀ ids ∈ f :: fs, ∀ x ∈ ids,
      x < get_one_hot_size (compute_event_ranges c)) :
    create_music_rnn_dataset c (f :: fs) batch_size window_size use_generator =
      .ok none ∧
    load_music_rnn_dataset c (f :: fs) batch_size window_size use_generator =
      .error .type_error := by
  have hmap : except_map_list
      (fun ids => get_sequences_from_file c ids window_size) (f :: fs) =
      .ok ((f :: fs).map (fun ids =>
        (List.range (ids.length / (window_size + 1))).map (fun i =>
          (((ids.drop (i * (window_size + 1))).take window_size).map (fun id => [id]),
            one_hot_at (256 + c.max_time_steps + c.velocity_bins)
              (ids.getD (i * (window_size + 1) + window_size) 0))))) := by
    apply except_map_list_ok
    intro ids hids
    refine get_sequences_from_file_eq c ids window_size (fun x hx => ?_)
    have hx2 := h ids hids x hx
    rwa [get_one_hot_size_ranges] at hx2
  have hcreate : create_music_rnn_dataset c (f :: fs) batch_size window_size
      use_generator = .ok none := by
    cases use_generator with
    | true => rfl
    | false =>
      show ((match except_map_list
          (fun ids => get_sequences_from_file c ids window_size) (f :: fs) with
        | Except.error e => Except.error (PyError.codec e)
        | Except.ok _data => Except.ok none) :
          Except PyError (Option (TFDataset × Nat))) = Except.ok none
      rw [hmap]
  refine ⟨hcreate, ?_⟩
  unfold load_music_rnn_dataset
  rw [hcreate]

/-- C1 witness: the single encoded file `[0, 1, 2]` (all ids valid) under
configuration `(10, 100, 32)`, batch size 1, window size 2, eager loading. -/
theorem C1_create_dataset_returns_none_witness :
    (∀ ids ∈ [[0, 1, 2]], ∀ x ∈ ids,
        x < get_one_hot_size (compute_event_ranges ⟨10, 100, 32⟩)) ∧
    (create_music_rnn_dataset ⟨10, 100, 32⟩ [[0, 1, 2]] 1 2 false = .ok none ∧
      load_music_rnn_dataset ⟨10, 100, 32⟩ [[0, 1, 2]] 1 2 false =
        .error .type_error) :=
  ⟨by decide,
    C1_create_dataset_returns_none ⟨10, 100, 32⟩ [0, 1, 2] [] 1 2 false (by decide)⟩

/-- C2: confirmed. For every stream of (valid) integer ids of length `L` and
every window size `W`, the extraction of `_get_sequences_from_file` yields
exactly `L / (W + 1)` tuples, taken sequentially from the start with any
trailing remainder shorter than `W + 1` ids discarded; the `i`-th tuple's `x`
holds the first `W` ids of the `i`-th non-overlapping chunk (as the
`(W, 1)`-shaped array of singleton rows the code builds) and its `y` is the
one-hot encoding, of total width, of that chunk's `(W + 1)`-th id. -/
theorem C2_windowing_extraction (c : Config) (ids : List Nat) (W : Nat)
    (h : ∀ x ∈ ids, x < get_one_hot_size (compute_event_ranges c)) :
    ∃ tuples, get_sequences_from_file c ids W = .ok tuples ∧
      tuples.length = ids.length / (W + 1) ∧
      ∀ i : Nat, ∀ hi : i < tuples.length,
        (tuples.get ⟨i, hi⟩).1 =
          ((ids.drop (i * (W + 1))).take W).map (fun id => [id]) ∧
        (tuples.get ⟨i, hi⟩).2 =
          one_hot_at (get_one_hot_size (compute_event_ranges c))
            (ids.getD (i * (W + 1) + W) 0) := by
  rw [get_one_hot_size_ranges] at h ⊢
  refine ⟨_, get_sequences_from_file_eq c ids W h, by simp, ?_⟩
  intro i hi
  constructor
  · simp [List.get_eq_getElem]
  · simp [List.get_eq_getElem]

/-- C2 witness: the concrete valid id stream `[0, 130, 2, 300, 4]` under
configuration `(10, 100, 32)` with window size 1 (five ids, two chunks). -/
theorem C2_windowing_extraction_witness :
    (∀ x ∈ [0, 130, 2, 300, 4],
        x < get_one_hot_size (compute_event_ranges ⟨10, 100, 32⟩)) ∧
    (∃ tuples, get_sequences_from_file ⟨10, 100, 32⟩ [0, 130, 2, 300, 4] 1 =
        .ok tuples ∧
      tuples.length = [0, 130, 2, 300, 4].length / (1 + 1) ∧
      ∀ i : Nat, ∀ hi : i < tuples.length,
        (tuples.get ⟨i, hi⟩).1 =
          (([0, 130, 2, 300, 4].drop (i * (1 + 1))).take 1).map (fun id => [id]) ∧
        (tuples.get ⟨i, hi⟩).2 =
          one_hot_at (get_one_hot_size (compute_event_ranges ⟨10, 100, 32⟩))
            ([0, 130, 2, 300, 4].getD (i * (1 + 1) + 1) 0)) :=
  ⟨by decide, C2_windowing_extraction ⟨10, 100, 32⟩ [0, 130, 2, 300, 4] 1 (by decide)⟩

/-- C3: confirmed (decode side modelled from the spec, the codec module being
absent from the source tree). For every valid configuration and every valid
event under the derived ranges, decoding the integer encoding is the identity,
and the one-hot form round-trips identically. -/
theorem C3_codec_roundtrip (c : Config) (hc : c.valid) (e : Event)
    (he : e.is_valid c = true) :
    id_to_event (encode_event_as_int e (compute_event_ranges c))
      (compute_event_ranges c) = .ok e ∧
    one_hot_vector_as_event (event_as_one_hot_vector e (compute_event_ranges c))
      (compute_event_ranges c) = .ok e := by
  refine ⟨id_to_event_encode c e he, ?_⟩
  unfold one_hot_vector_as_event event_as_one_hot_vector
  rw [get_one_hot_size_ranges, np_argmax_one_hot _ _ (encode_lt_total c e he)]
  exact id_to_event_encode c e he

/-- C3 witness: the valid event VELOCITY_CHANGE 5 under the valid configuration
`(10, 100, 32)`. -/
theorem C3_codec_roundtrip_witness :
    Config.valid ⟨10, 100, 32⟩ ∧
    Event.is_valid ⟨.velocity_change, some 5⟩ ⟨10, 100, 32⟩ = true ∧
    (id_to_event
        (encode_event_as_int ⟨.velocity_change, some 5⟩
          (compute_event_ranges ⟨10, 100, 32⟩))
        (compute_event_ranges ⟨10, 100, 32⟩) = .ok ⟨.velocity_change, some 5⟩ ∧
      one_hot_vector_as_event
        (event_as_one_hot_vector ⟨.velocity_change, some 5⟩
          (compute_event_ranges ⟨10, 100, 32⟩))
        (compute_event_ranges ⟨10, 100, 32⟩) = .ok ⟨.velocity_change, some 5⟩) :=
  ⟨by decide, by decide,
    C3_codec_roundtrip ⟨10, 100, 32⟩ (by decide) ⟨.velocity_change, some 5⟩ (by decide)⟩

/-- C4 counterexample: the claim's failure clause is FALSE of the code. For
NOTE_ON with value 200 under configuration `(10, 100, 32)`,
`_encode_event_as_int` silently returns id 200, at or beyond the stop 128 of
`ranges[NOTE_ON] = [0, 128)` — an out-of-range id is produced and no
EncodingError is raised. -/
theorem C4_counterexample :
    encode_event_as_int ⟨.note_on, some 200⟩
        (compute_event_ranges ⟨10, 100, 32⟩) = 200 ∧
    (compute_event_ranges ⟨10, 100, 32⟩ EventType.note_on).stop = 128 ∧
    (compute_event_ranges ⟨10, 100, 32⟩ EventType.note_on).stop ≤
      encode_event_as_int ⟨.note_on, some 200⟩
        (compute_event_ranges ⟨10, 100, 32⟩) := by
  decide

/-- C4 (amended): `event_to_id` as implemented by `_encode_event_as_int` returns
`ranges[event.type].start + (event.value or 0)` unconditionally; the resulting
id lies inside `ranges[event.type]` precisely when the value lies inside the
kind's dimension, and for any larger value the out-of-range id is returned
silently — no EncodingError is raised. -/
theorem C4_encode_no_range_check (c : Config) (e : Event) :
    encode_event_as_int e (compute_event_ranges c) =
      (compute_event_ranges c e.type).start + e.value.getD 0 ∧
    (encode_event_as_int e (compute_event_ranges c) <
        (compute_event_ranges c e.type).stop ↔
      e.value.getD 0 < compute_event_dimensions c e.type) := by
  refine ⟨rfl, ?_⟩
  simp only [encode_event_as_int, compute_event_ranges]
  omega

/-- C5: FALSE of the code (code bug). The `--seed` option ('Sets the seed of
the random engine') is resolved by the cli group callback but never passed to
any random engine — no `np.random.seed` call exists in cli.py, and the seed is
not forwarded to `split_dataset`/`convert_all` either — so the RNG state before
any augmentation/split draw is the ambient one, independent of the supplied
seed: two same-seed runs under different ambient states draw differently,
contradicting the claimed run-to-run determinism. -/
theorem C5_seed_never_applied :
    (∀ (s : CliState) (verbosity : String) (seed1 seed2 : Option Nat) (t1 t2 : Nat),
      (cli_group s verbosity seed1 t1).1.np_random_state =
        (cli_group s verbosity seed2 t2).1.np_random_state) ∧
    (cli_group ⟨0, "root"⟩ "INFO" (some 42) 0).1.np_random_state = 0 ∧
    (cli_group ⟨1, "root"⟩ "INFO" (some 42) 0).1.np_random_state = 1 :=
  ⟨fun _ _ _ _ _ _ => rfl, rfl, rfl⟩

/-- C6 counterexample: the claim overstates the manifest's content. In a
metadata-enabled run the manifest's keys are exactly the nine below — two
timestamps, the two paths, the transform and split settings and a seed field —
and no field records file counts, though the claim lists counts among the
captured run parameters. -/
theorem C6_counterexample :
    preprocess (some "model_config.yml") true true =
      .ok [PAction.split_dataset, PAction.write_metadata, PAction.copy_config] ∧
    metadata_keys = ["local_time", "utc_time", "raw_dataset_path",
      "output_directory", "transform", "transform_percent", "split",
      "test_percent", "seed"] ∧
    metadata_keys.contains "counts" = false := by
  refine ⟨rfl, rfl, by decide⟩

/-- C6 (amended): in every preprocess run with an explicit configuration path
and metadata output enabled, a metadata.json manifest capturing the run
parameters (timestamps, paths, seed field, transform and split settings — but
no file counts) and a copy of the configuration file are written to the output
directory, and this happens strictly after the conversion call (`split_dataset`
or `convert_all`, which completes all worker conversion before returning) in
the trace. -/
theorem C6_metadata_after_conversion (p : String) (hp : p.isEmpty = false)
    (split : Bool) :
    ∃ t, preprocess (some p) split true = .ok t ∧
      PAction.write_metadata ∈ t ∧ PAction.copy_config ∈ t ∧
      "local_time" ∈ metadata_keys ∧ "utc_time" ∈ metadata_keys ∧
      "seed" ∈ metadata_keys ∧ "transform" ∈ metadata_keys ∧
      "split" ∈ metadata_keys ∧
      ∀ i j : Fin t.length,
        (t.get i = PAction.split_dataset ∨ t.get i = PAction.convert_all) →
        (t.get j = PAction.write_metadata ∨ t.get j = PAction.copy_config) →
        i < j := by
  cases split with
  | true =>
    refine ⟨[PAction.split_dataset, PAction.write_metadata, PAction.copy_config],
      ?_, by decide⟩
    simp [preprocess, preprocess_resolve_config, hp]
  | false =>
    refine ⟨[PAction.convert_all, PAction.write_metadata, PAction.copy_config],
      ?_, by decide⟩
    simp [preprocess, preprocess_resolve_config, hp]

/-- C6 witness: a split run with the explicit path `model_config.yml`. -/
theorem C6_metadata_after_conversion_witness :
    "model_config.yml".isEmpty = false ∧
    (∃ t, preprocess (some "model_config.yml") true true = .ok t ∧
      PAction.write_metadata ∈ t ∧ PAction.copy_config ∈ t ∧
      "local_time" ∈ metadata_keys ∧ "utc_time" ∈ metadata_keys ∧
      "seed" ∈ metadata_keys ∧ "transform" ∈ metadata_keys ∧
      "split" ∈ metadata_keys ∧
      ∀ i j : Fin t.length,
        (t.get i = PAction.split_dataset ∨ t.get i = PAction.convert_all) →
        (t.get j = PAction.write_metadata ∨ t.get j = PAction.copy_config) →
        i < j) :=
  ⟨by decide, C6_metadata_after_conversion "model_config.yml" (by decide) true⟩

/-- C7 counterexample: the claim that each training input `x` is a sequence of
`W` one-hot vectors of width total_dimension is FALSE of the code. Under
configuration `(10, 100, 32)` (total width 388), the stream `[0, 1, 2]` with
window size 2 yields one tuple whose `x` is `[[0], [1]]` — two singleton rows
holding raw integer ids, of width 1, strictly narrower than the one-hot width;
only the label `y` is one-hot. -/
theorem C7_counterexample :
    get_sequences_from_file ⟨10, 100, 32⟩ [0, 1, 2] 2 =
      .ok [([[0], [1]], one_hot_at 388 2)] ∧
    (∀ row ∈ [[0], [1]], List.length row = 1) ∧
    1 < get_one_hot_size (compute_event_ranges ⟨10, 100, 32⟩) := by
  refine ⟨rfl, by decide, by decide⟩

/-- C7 (amended): each training input `x` is handed to the model in the Event
Codec's integer form — exactly `window_size` singleton rows, each holding one
raw event id drawn from the stream — while only the label `y` is in one-hot
form of width total_dimension (the loader's `input_event_encoding=ONE_HOT`
request notwithstanding: `create_music_rnn_dataset` builds integer inputs). -/
theorem C7_integer_input_form (c : Config) (ids : List Nat) (W : Nat)
    (h : ∀ x ∈ ids, x < get_one_hot_size (compute_event_ranges c)) :
    ∃ tuples, get_sequences_from_file c ids W = .ok tuples ∧
      ∀ t ∈ tuples, t.1.length = W ∧
        (∀ row ∈ t.1, ∃ id ∈ ids, row = [id]) ∧
        t.2.length = get_one_hot_size (compute_event_ranges c) := by
  rw [get_one_hot_size_ranges] at h ⊢
  refine ⟨_, get_sequences_from_file_eq c ids W h, ?_⟩
  intro t ht
  simp only [List.mem_map, List.mem_range] at ht
  obtain ⟨i, hi, rfl⟩ := ht
  have hlen : i * (W + 1) + W < ids.length := chunk_index_lt ids.length W i hi
  refine ⟨?_, ?_, one_hot_at_length _ _⟩
  · simp only [List.length_map, List.length_take, List.length_drop]
    omega
  · intro row hrow
    simp only [List.mem_map] at hrow
    obtain ⟨id, hid, rfl⟩ := hrow
    exact ⟨id, List.mem_of_mem_drop (List.mem_of_mem_take hid), rfl⟩

/-- C7 amended witness: the stream `[0, 1, 2]` under configuration
`(10, 100, 32)` with window size 2. -/
theorem C7_integer_input_form_witness :
    (∀ x ∈ [0, 1, 2],
        x < get_one_hot_size (compute_event_ranges ⟨10, 100, 32⟩)) ∧
    (∃ tuples, get_sequences_from_file ⟨10, 100, 32⟩ [0, 1, 2] 2 = .ok tuples ∧
      ∀ t ∈ tuples, t.1.length = 2 ∧
        (∀ row ∈ t.1, ∃ id ∈ [0, 1, 2], row = [id]) ∧
        t.2.length = get_one_hot_size (compute_event_ranges ⟨10, 100, 32⟩)) :=
  ⟨by decide, C7_integer_input_form ⟨10, 100, 32⟩ [0, 1, 2] 2 (by decide)⟩

/-- C8: confirmed. `ModelType.create_model` hands `_create_music_rnn`'s six
positional arguments `(dimensions, window_size, lstm_layers_count,
lstm_layer_sizes, lstm_dropout_probability, use_batch_normalization)` to a
constructor whose first six parameters are `(input_event_dimensions,
output_event_dimensions, window_size, lstm_layers_count, lstm_layer_sizes,
lstm_dropout_probability)`: every argument after the first binds one position
earlier than its name suggests, the constructor's own trailing defaults fill
`dense_layer_size`/`use_batch_normalization`, and in particular the model's
output layer width (`output_event_dimensions`) equals `config.model.window_size`
rather than the one-hot vocabulary size. -/
theorem C8_positional_binding (c : Config) (m : ModelConfig) :
    (create_model c m).1.input_event_dimensions =
        get_one_hot_size (compute_event_ranges c) ∧
    (create_model c m).1.output_event_dimensions = m.window_size ∧
    (create_model c m).1.window_size = m.lstm_layers_count ∧
    (create_model c m).1.lstm_layers_count = m.lstm_layer_sizes ∧
    (create_model c m).1.lstm_layer_sizes = m.lstm_dropout_probability ∧
    (create_model c m).1.lstm_dropout_probability = m.use_batch_normalization ∧
    (create_model c m).1.dense_layer_size = 256 ∧
    (create_model c m).1.use_batch_normalization = 1 ∧
    (create_model c m).1.output_layer_width = m.window_size :=
  ⟨rfl, rfl, rfl, rfl, rfl, rfl, rfl, rfl, rfl⟩

/-- C9: confirmed. Every preprocess invocation without an explicit `--config`
path takes the default-config branch, which evaluates the undefined name
`model_type` and raises NameError before any dataset processing (the resulting
trace holds no conversion action); an invocation with an explicit (non-empty)
path short-circuits the `or` and proceeds. -/
theorem C9_preprocess_default_config_name_error (split output_metadata : Bool)
    (p : String) (hp : p.isEmpty = false) :
    preprocess none split output_metadata = .error .name_error ∧
    ∃ t, preprocess (some p) split output_metadata = .ok t := by
  refine ⟨rfl, ?_⟩
  refine ⟨(if split then [PAction.split_dataset] else [PAction.convert_all]) ++
    (if output_metadata then [PAction.write_metadata, PAction.copy_config] else []), ?_⟩
  simp [preprocess, preprocess_resolve_config, hp]

/-- C9 witness: the explicit path `model_config.yml` versus no path, for a
split metadata-enabled run. -/
theorem C9_preprocess_default_config_name_error_witness :
    "model_config.yml".isEmpty = false ∧
    (preprocess none true true = .error .name_error ∧
      ∃ t, preprocess (some "model_config.yml") true true = .ok t) :=
  ⟨by decide,
    C9_preprocess_default_config_name_error true true "model_config.yml" (by decide)⟩

/-- C10: confirmed. Every invocation of the evaluate command fails with
UnboundLocalError: the statement `model, dimensions =
model_type.create_model(config, dimensions)` reads the local `dimensions` as an
argument on the same statement that would first assign it, so the error is
raised while evaluating the call's arguments — before any model or dataset is
loaded, and no evaluation is ever performed (the resulting trace holds no
action). -/
theorem C10_evaluate_unbound_local (config_filepath : Option String)
    (default_config : String) :
    evaluate_cmd config_filepath default_config = .error .unbound_local_error :=
  rfl

end Composer
